import Mathlib

/-!
Shallow embedding of the Bridge repository's command-translation layer
(`src/translator.py`, over the connector interface of `src/connector.py`).

JSON-like documents are modelled by `JValue`; a command document is an
association list `Doc`.  Python semantics that the translator relies on are
made explicit: `dict.get` (absent key yields `None`, modelled as
`JValue.null`), key membership (`hasKey`), truthiness (`truthy`), the
short-circuiting `or` (`pyOr`), `isinstance(x, str)` (`asStr`), `str(x)`
(`pyStr`) and `int(x)` (`pyInt`).

The remote connector is an oracle (`Connector`): each method either returns
a result or fails with a `JiraError` (the embedding of `jira.JIRAError`).
Handlers run in `TransM`, which accumulates the ordered trace of remote
calls actually issued and stops at the first raised exception, so that the
observable behaviour of a command is the pair (remote-call trace, outcome).
-/

inductive JValue : Type where
  | null : JValue
  | bool : Bool → JValue
  | num : Int → JValue
  | str : String → JValue
  | arr : List JValue → JValue
  | obj : List (String × JValue) → JValue

abbrev Doc := List (String × JValue)

/-- First binding of a key in a document (Python dict lookup; the documents
we build are duplicate-free, matching parsed JSON objects). -/
def Doc.find (d : Doc) (k : String) : Option JValue :=
  match d with
  | [] => none
  | (k', v) :: rest => if k' = k then some v else Doc.find rest k

/-- Python `k in data`. -/
def Doc.hasKey (d : Doc) (k : String) : Bool :=
  (d.find k).isSome

/-- Python `data.get(k, default)`. -/
def Doc.getD (d : Doc) (k : String) (dflt : JValue) : JValue :=
  match d.find k with
  | some v => v
  | none => dflt

/-- Python `data.get(k)`: absent keys give `None`, embedded as `null`
(JSON `null` also parses to `None`, so the two coincide, as in Python). -/
def Doc.get (d : Doc) (k : String) : JValue :=
  d.getD k JValue.null

/-- Python truthiness of a JSON-like value. -/
def JValue.truthy : JValue → Bool
  | JValue.null => false
  | JValue.bool b => b
  | JValue.num n => n != 0
  | JValue.str s => s != ""
  | JValue.arr xs => !xs.isEmpty
  | JValue.obj kvs => !kvs.isEmpty

/-- Python short-circuiting `a or b` on values. -/
def pyOr (a b : JValue) : JValue :=
  if a.truthy then a else b

/-- Python `isinstance(v, str)`: the string payload when `v` is a string. -/
def JValue.asStr : JValue → Option String
  | JValue.str s => some s
  | _ => none

mutual
/-- Python `repr` of a JSON-like value (quoting of embedded quotes inside
string payloads is not modelled; no claim depends on it). -/
def pyRepr : JValue → String
  | JValue.null => "None"
  | JValue.bool true => "True"
  | JValue.bool false => "False"
  | JValue.num n => toString n
  | JValue.str s => "\x27" ++ s ++ "\x27"
  | JValue.arr xs => "[" ++ pyReprItems xs ++ "]"
  | JValue.obj kvs => "\x7b" ++ pyReprPairs kvs ++ "\x7d"

def pyReprItems : List JValue → String
  | [] => ""
  | [v] => pyRepr v
  | v :: w :: vs => pyRepr v ++ ", " ++ pyReprItems (w :: vs)

def pyReprPairs : List (String × JValue) → String
  | [] => ""
  | [(k, v)] => "\x27" ++ k ++ "\x27: " ++ pyRepr v
  | (k, v) :: p :: ps => "\x27" ++ k ++ "\x27: " ++ pyRepr v ++ ", " ++ pyReprPairs (p :: ps)
end

/-- Python `str(v)` for a JSON-like value. -/
def pyStr : JValue → String
  | JValue.str s => s
  | v => pyRepr v

/-- Python `int(v)`: succeeds on numbers, booleans and integer-shaped
strings, raises (`ValueError`/`TypeError`) otherwise. -/
def pyInt : JValue → Except String Int
  | JValue.num n => Except.ok n
  | JValue.bool b => Except.ok (if b then 1 else 0)
  | JValue.str s =>
      match s.trim.toInt? with
      | some n => Except.ok n
      | none => Except.error ("invalid literal for int(): " ++ s)
  | _ => Except.error "int() argument must be a string or a number"

/-- Embeds `JiraCommandTranslator._normalize_comments` (translator.py:320-334). -/
def normalize_comments : JValue → List String
  | JValue.null => []
  | JValue.str s => [s]
  | JValue.arr xs => xs.map pyStr
  | v => [pyStr v]

/-!
## Remote connector model

`Issue` embeds the projection of a remote `jira.resources.Issue` that
`_serialize_issue` (translator.py:306-318) reads: the `getattr` chains with
`None` defaults are modelled by storing each projected attribute directly as
a `JValue` (with `null` for a missing attribute).  `Comment` likewise embeds
the four attributes read by `_handle_get_comments`.
-/

structure Issue : Type where
  key : String
  id : JValue
  summary : JValue
  description : JValue
  status : JValue
  assignee : JValue
  reporter : JValue
  project : JValue

structure Comment : Type where
  id : JValue
  author : JValue
  body : JValue
  created : JValue

/-- Embedding of `jira.exceptions.JIRAError`: the translator reads
`getattr(e, "status_code", None)` and `str(e)`. -/
structure JiraError : Type where
  status_code : JValue
  message : String

/-- One remote call issued through `JiraConnector`, recorded with the
arguments the translator passed (connector.py methods). -/
inductive RemoteCall : Type where
  | create_issue : String → String → JValue → JValue → Doc → RemoteCall
  | transition_issue : String → String → RemoteCall
  | add_comment : String → String → RemoteCall
  | get_issue : String → RemoteCall
  | update_summary : String → String → RemoteCall
  | update_description : String → String → RemoteCall
  | update_issue_fields : String → Doc → RemoteCall
  | search_issues : String → Int → RemoteCall
  | get_project_issues : String → JValue → Int → RemoteCall
  | get_my_open_issues : Int → RemoteCall
  | get_comments : String → RemoteCall
  | available_transitions : String → RemoteCall

/-- Oracle for the remote side (`JiraConnector`, connector.py): each method
returns its result or fails with a `JiraError`.  Return values the
translator ignores (the `Comment` from `add_comment`, the refreshed `Issue`
from the update methods) are dropped to `Unit`/`Issue` as used. -/
structure Connector : Type where
  create_issue : String → String → JValue → JValue → Doc → Except JiraError Issue
  transition_issue : String → String → Except JiraError Unit
  add_comment : String → String → Except JiraError Unit
  get_issue : String → Except JiraError Issue
  update_summary : String → String → Except JiraError Issue
  update_description : String → String → Except JiraError Issue
  update_issue_fields : String → Doc → Except JiraError Issue
  search_issues : String → Int → Except JiraError (List Issue)
  get_project_issues : String → JValue → Int → Except JiraError (List Issue)
  get_my_open_issues : Int → Except JiraError (List Issue)
  get_comments : String → Except JiraError (List Comment)
  available_transitions : String → Except JiraError JValue

/-- A Python exception escaping a handler: `ValueError` (validation),
`JIRAError` (remote failure), or `json.JSONDecodeError` (parse failure). -/
inductive PyError : Type where
  | valueError : String → PyError
  | jiraError : JiraError → PyError
  | jsonDecodeError : String → PyError

/-- Handler computations: thread the ordered trace of remote calls issued so
far and stop at the first raised exception. -/
def TransM (α : Type) : Type :=
  List RemoteCall → List RemoteCall × Except PyError α

def TransM.pure {α : Type} (a : α) : TransM α :=
  fun tr => (tr, Except.ok a)

def TransM.bind {α β : Type} (x : TransM α) (f : α → TransM β) : TransM β :=
  fun tr =>
    match x tr with
    | (tr', Except.ok a) => f a tr'
    | (tr', Except.error e) => (tr', Except.error e)

/-- Issue one remote call: it is appended to the trace whether it succeeds
or raises. -/
def remote {α : Type} (call : RemoteCall) (result : Except JiraError α) : TransM α :=
  fun tr =>
    (tr ++ [call],
     match result with
     | Except.ok a => Except.ok a
     | Except.error e => Except.error (PyError.jiraError e))

/-- Raise a Python `ValueError` (no remote call is issued). -/
def raiseValue {α : Type} (msg : String) : TransM α :=
  fun tr => (tr, Except.error (PyError.valueError msg))

/-- Run a handler computation from the empty trace: the observable behaviour
of one command. -/
def run {α : Type} (m : TransM α) : List RemoteCall × Except PyError α :=
  m []

/-!
## The translator (`JiraCommandTranslator`, translator.py)
-/

/-- Python `str.lower()` on ASCII letters (the dispatch of `execute` only
compares the lowered command type against ASCII command names). -/
def pyLowerChar (ch : Char) : Char :=
  if 65 ≤ ch.toNat ∧ ch.toNat ≤ 90 then Char.ofNat (ch.toNat + 32) else ch

def pyLower (s : String) : String :=
  String.mk (s.data.map pyLowerChar)

/-- Embeds `_serialize_issue` (translator.py:306-318). -/
def serialize_issue (i : Issue) : JValue :=
  JValue.obj
    [("key", JValue.str i.key), ("id", i.id), ("summary", i.summary),
     ("description", i.description), ("status", i.status),
     ("assignee", i.assignee), ("reporter", i.reporter), ("project", i.project)]

def serialize_comment (cm : Comment) : JValue :=
  JValue.obj [("id", cm.id), ("author", cm.author), ("body", cm.body), ("created", cm.created)]

/-- Embeds `data.get("issueKey") or data.get("key") or data.get("issue")`
(translator.py:161-165 and the identical chains in the other handlers). -/
def resolveIssueKey (data : Doc) : JValue :=
  pyOr (data.get ("issueKey")) (pyOr (data.get ("key")) (data.get ("issue")))

/-- The `for comment_body in ...: add_comment(...)` loop of the Create and
Edit handlers. -/
def post_comments (c : Connector) (key : String) : List String → TransM Unit
  | [] => TransM.pure ()
  | b :: rest =>
      TransM.bind (remote (RemoteCall.add_comment key b) (c.add_comment key b)) fun _ =>
        post_comments c key rest

/-- Embeds `_handle_create` (translator.py:121-158). -/
def handle_create (c : Connector) (data : Doc) : TransM JValue :=
  match (data.get ("project")).asStr, (data.get ("summary")).asStr with
  | some project, some summary =>
      let description := pyOr (data.get ("description")) (JValue.str (""))
      let issue_type :=
        pyOr (data.get ("issueType")) (pyOr (data.get ("issue_type")) (JValue.str ("Task")))
      match pyOr (data.get ("fields")) (JValue.obj []) with
      | JValue.obj extra_fields =>
          TransM.bind
            (remote (RemoteCall.create_issue project summary description issue_type extra_fields)
              (c.create_issue project summary description issue_type extra_fields)) fun issue =>
          TransM.bind
            (match (data.get ("changeStatus")).asStr with
             | some st =>
                 remote (RemoteCall.transition_issue issue.key st) (c.transition_issue issue.key st)
             | none => TransM.pure ()) fun _ =>
          TransM.bind (post_comments c issue.key (normalize_comments (data.get ("addComment")))) fun _ =>
          TransM.bind (remote (RemoteCall.get_issue issue.key) (c.get_issue issue.key)) fun refreshed =>
          TransM.pure (JValue.obj
            [("ok", JValue.bool true), ("type", JValue.str ("Create")),
             ("issue", serialize_issue refreshed)])
      | _ => raiseValue ("\x22fields\x22 must be an object when present.")
  | _, _ => raiseValue ("Create requires \x22project\x22 (str) and \x22summary\x22 (str).")

/-- Edit, summary action (translator.py:172-174). -/
def edit_summary_step (c : Connector) (data : Doc) (issue_key : String) : TransM (List String) :=
  if data.hasKey ("summary") then
    match (data.get ("summary")).asStr with
    | some s =>
        TransM.bind (remote (RemoteCall.update_summary issue_key s) (c.update_summary issue_key s))
          fun _ => TransM.pure ["summary"]
    | none => TransM.pure []
  else TransM.pure []

/-- Edit, description action (translator.py:177-179). -/
def edit_description_step (c : Connector) (data : Doc) (issue_key : String) : TransM (List String) :=
  if data.hasKey ("description") then
    match (data.get ("description")).asStr with
    | some s =>
        TransM.bind
          (remote (RemoteCall.update_description issue_key s) (c.update_description issue_key s))
          fun _ => TransM.pure ["description"]
    | none => TransM.pure []
  else TransM.pure []

/-- Edit, arbitrary-fields action (translator.py:182-187). -/
def edit_fields_step (c : Connector) (data : Doc) (issue_key : String) : TransM (List String) :=
  if data.hasKey ("fields") then
    match data.get ("fields") with
    | JValue.obj fields =>
        TransM.bind
          (remote (RemoteCall.update_issue_fields issue_key fields) (c.update_issue_fields issue_key fields))
          fun _ => TransM.pure ["fields"]
    | _ => raiseValue ("\x22fields\x22 must be an object when present.")
  else TransM.pure []

/-- Edit, status action (translator.py:190-192). -/
def edit_status_step (c : Connector) (data : Doc) (issue_key : String) : TransM (List String) :=
  if data.hasKey ("changeStatus") then
    match (data.get ("changeStatus")).asStr with
    | some st =>
        TransM.bind
          (remote (RemoteCall.transition_issue issue_key st) (c.transition_issue issue_key st))
          fun _ => TransM.pure ["status"]
    | none => TransM.pure []
  else TransM.pure []

/-- Edit, comments action (translator.py:195-200): `actions` gains
`"comments"` only when the normalized list is non-empty. -/
def edit_comments_step (c : Connector) (data : Doc) (issue_key : String) : TransM (List String) :=
  if data.hasKey ("addComment") then
    TransM.bind (post_comments c issue_key (normalize_comments (data.get ("addComment")))) fun _ =>
      TransM.pure (if (normalize_comments (data.get ("addComment"))).isEmpty then [] else ["comments"])
  else TransM.pure []

/-- Embeds `_handle_edit` (translator.py:160-208). -/
def handle_edit (c : Connector) (data : Doc) : TransM JValue :=
  match (resolveIssueKey data).asStr with
  | none => raiseValue ("Edit requires \x22issueKey\x22 (or \x22key\x22/\x22issue\x22) as a string.")
  | some issue_key =>
      TransM.bind (edit_summary_step c data issue_key) fun a1 =>
      TransM.bind (edit_description_step c data issue_key) fun a2 =>
      TransM.bind (edit_fields_step c data issue_key) fun a3 =>
      TransM.bind (edit_status_step c data issue_key) fun a4 =>
      TransM.bind (edit_comments_step c data issue_key) fun a5 =>
      TransM.bind (remote (RemoteCall.get_issue issue_key) (c.get_issue issue_key)) fun refreshed =>
      TransM.pure (JValue.obj
        [("ok", JValue.bool true), ("type", JValue.str ("Edit")),
         ("issue", serialize_issue refreshed),
         ("actions", JValue.arr ((a1 ++ a2 ++ a3 ++ a4 ++ a5).map JValue.str))])

/-- Embeds `_handle_get_issue` (translator.py:210-219). -/
def handle_get_issue (c : Connector) (data : Doc) : TransM JValue :=
  match (resolveIssueKey data).asStr with
  | none => raiseValue ("GetIssue requires \x22issueKey\x22 (or \x22key\x22/\x22issue\x22).")
  | some issue_key =>
      TransM.bind (remote (RemoteCall.get_issue issue_key) (c.get_issue issue_key)) fun issue =>
        TransM.pure (JValue.obj
          [("ok", JValue.bool true), ("type", JValue.str ("GetIssue")),
           ("issue", serialize_issue issue)])

/-- Embeds `_handle_search` (translator.py:221-233). -/
def handle_search (c : Connector) (data : Doc) : TransM JValue :=
  match (data.get ("jql")).asStr with
  | none => raiseValue ("Search requires \x22jql\x22 (str).")
  | some jql =>
      match pyInt (data.getD ("maxResults") (JValue.num 50)) with
      | Except.error m => raiseValue m
      | Except.ok max_results =>
          TransM.bind (remote (RemoteCall.search_issues jql max_results) (c.search_issues jql max_results))
            fun issues =>
              TransM.pure (JValue.obj
                [("ok", JValue.bool true), ("type", JValue.str ("Search")),
                 ("jql", JValue.str jql),
                 ("total", JValue.num (Int.ofNat issues.length)),
                 ("issues", JValue.arr (issues.map serialize_issue))])

/-- Embeds `_handle_get_project_issues` (translator.py:235-249). -/
def handle_get_project_issues (c : Connector) (data : Doc) : TransM JValue :=
  match (data.get ("project")).asStr with
  | none => raiseValue ("GetProjectIssues requires \x22project\x22 (str).")
  | some project =>
      let status := data.get ("status")
      match pyInt (data.getD ("maxResults") (JValue.num 50)) with
      | Except.error m => raiseValue m
      | Except.ok max_results =>
          TransM.bind
            (remote (RemoteCall.get_project_issues project status max_results)
              (c.get_project_issues project status max_results)) fun issues =>
              TransM.pure (JValue.obj
                [("ok", JValue.bool true), ("type", JValue.str ("GetProjectIssues")),
                 ("project", JValue.str project), ("status", status),
                 ("total", JValue.num (Int.ofNat issues.length)),
                 ("issues", JValue.arr (issues.map serialize_issue))])

/-- Embeds `_handle_get_my_open_issues` (translator.py:251-259). -/
def handle_get_my_open_issues (c : Connector) (data : Doc) : TransM JValue :=
  match pyInt (data.getD ("maxResults") (JValue.num 50)) with
  | Except.error m => raiseValue m
  | Except.ok max_results =>
      TransM.bind (remote (RemoteCall.get_my_open_issues max_results) (c.get_my_open_issues max_results))
        fun issues =>
          TransM.pure (JValue.obj
            [("ok", JValue.bool true), ("type", JValue.str ("GetMyOpenIssues")),
             ("total", JValue.num (Int.ofNat issues.length)),
             ("issues", JValue.arr (issues.map serialize_issue))])

/-- Embeds `_handle_get_comments` (translator.py:261-284). -/
def handle_get_comments (c : Connector) (data : Doc) : TransM JValue :=
  match (resolveIssueKey data).asStr with
  | none => raiseValue ("GetComments requires \x22issueKey\x22 (or \x22key\x22/\x22issue\x22).")
  | some issue_key =>
      TransM.bind (remote (RemoteCall.get_comments issue_key) (c.get_comments issue_key))
        fun comments =>
          TransM.pure (JValue.obj
            [("ok", JValue.bool true), ("type", JValue.str ("GetComments")),
             ("issueKey", JValue.str issue_key),
             ("total", JValue.num (Int.ofNat comments.length)),
             ("comments", JValue.arr (comments.map serialize_comment))])

/-- Embeds `_handle_get_transitions` (translator.py:286-300). -/
def handle_get_transitions (c : Connector) (data : Doc) : TransM JValue :=
  match (resolveIssueKey data).asStr with
  | none => raiseValue ("GetTransitions requires \x22issueKey\x22 (or \x22key\x22/\x22issue\x22).")
  | some issue_key =>
      TransM.bind (remote (RemoteCall.available_transitions issue_key) (c.available_transitions issue_key))
        fun transitions =>
          TransM.pure (JValue.obj
            [("ok", JValue.bool true), ("type", JValue.str ("GetTransitions")),
             ("issueKey", JValue.str issue_key), ("transitions", transitions)])

/-- A command payload: an already-parsed dict or a JSON text string
(the `JsonLike` union of translator.py). -/
inductive Payload : Type where
  | dict : Doc → Payload
  | text : String → Payload

/-- Embeds `_parse_payload` (translator.py:105-115).  The strict JSON parser
(`json.loads`, an external library) is a parameter `loads`; the permissive
retry replaces every single quote by a double quote, and a failure of the
retry propagates that second failure. -/
def parse_payload (loads : String → Except String Doc) : Payload → Except String Doc
  | Payload.dict d => Except.ok d
  | Payload.text s =>
      let t := s.trim
      match loads t with
      | Except.ok d => Except.ok d
      | Except.error _ => loads (t.replace ("\x27") ("\x22"))

/-- The `if cmd_type == ...` dispatch chain of `execute`
(translator.py:75-90): `none` when no branch matches. -/
def dispatchCmd (c : Connector) (cmd_type : String) (data : Doc) : Option (TransM JValue) :=
  if cmd_type = "create" then some (handle_create c data)
  else if cmd_type = "edit" then some (handle_edit c data)
  else if cmd_type = "getissue" then some (handle_get_issue c data)
  else if cmd_type = "search" then some (handle_search c data)
  else if cmd_type = "getprojectissues" then some (handle_get_project_issues c data)
  else if cmd_type = "getmyopenissues" then some (handle_get_my_open_issues c data)
  else if cmd_type = "getcomments" then some (handle_get_comments c data)
  else if cmd_type = "gettransitions" then some (handle_get_transitions c data)
  else none

/-- The `except JIRAError` envelope of `execute` (translator.py:91-97). -/
def jiraErrorEnvelope (e : JiraError) : JValue :=
  JValue.obj
    [("ok", JValue.bool false), ("error", JValue.str ("JIRAError")),
     ("status_code", e.status_code), ("message", JValue.str e.message)]

/-- The `try ... except JIRAError` wrapper of `execute`: a `JIRAError`
raised during dispatch becomes a returned envelope, every other outcome
passes through. -/
def catchJira (m : TransM JValue) : TransM JValue :=
  fun tr =>
    match m tr with
    | (tr', Except.error (PyError.jiraError e)) => (tr', Except.ok (jiraErrorEnvelope e))
    | r => r

/-- Embeds `execute` (translator.py:57-99). -/
def execute (loads : String → Except String Doc) (c : Connector) (payload : Payload) : TransM JValue :=
  fun tr =>
    match parse_payload loads payload with
    | Except.error m => (tr, Except.error (PyError.jsonDecodeError m))
    | Except.ok data =>
        match (data.get ("type")).asStr with
        | none => (tr, Except.error (PyError.valueError ("Command must include string field \x22type\x22.")))
        | some cmd_type_raw =>
            match dispatchCmd c (pyLower cmd_type_raw) data with
            | some m => catchJira m tr
            | none =>
                (tr, Except.error (PyError.valueError ("Unsupported command type: " ++ cmd_type_raw)))

/-!
## Concrete fixtures and unfolding lemmas
-/

/-- A fixed remote issue used by the concrete connectors below. -/
def issue0 : Issue :=
  { key := "KAN-1", id := JValue.null, summary := JValue.null, description := JValue.null,
    status := JValue.null, assignee := JValue.null, reporter := JValue.null, project := JValue.null }

/-- A connector on which every remote call succeeds. -/
def connOK : Connector :=
  { create_issue := fun _ _ _ _ _ => Except.ok issue0,
    transition_issue := fun _ _ => Except.ok (),
    add_comment := fun _ _ => Except.ok (),
    get_issue := fun k => Except.ok { issue0 with key := k },
    update_summary := fun k _ => Except.ok { issue0 with key := k },
    update_description := fun k _ => Except.ok { issue0 with key := k },
    update_issue_fields := fun k _ => Except.ok { issue0 with key := k },
    search_issues := fun _ _ => Except.ok [],
    get_project_issues := fun _ _ _ => Except.ok [],
    get_my_open_issues := fun _ => Except.ok [],
    get_comments := fun _ => Except.ok [],
    available_transitions := fun _ => Except.ok (JValue.arr []) }

/-- The remote rejection used in failure fixtures. -/
def err400 : JiraError := { status_code := JValue.num 400, message := "bad transition" }

/-- Like `connOK` but every status transition is rejected remotely. -/
def connTransFail : Connector :=
  { connOK with transition_issue := fun _ _ => Except.error err400 }

/-- A strict parser stub for commands supplied as already-parsed dicts
(`loads` is never consulted on the `dict` branch). -/
def loads0 : String → Except String Doc := fun _ => Except.error ("no parser")

/-- Successful-remote connector family returning `i` from `get_issue`. -/
def connEdit (i : Issue) : Connector :=
  { connOK with get_issue := fun _ => Except.ok i }

def specEditActions (d : Doc) : List String :=
  (if d.hasKey ("summary") && (d.get ("summary")).asStr.isSome then ["summary"] else []) ++
  (if d.hasKey ("description") && (d.get ("description")).asStr.isSome then ["description"] else []) ++
  (if d.hasKey ("fields") then ["fields"] else []) ++
  (if d.hasKey ("changeStatus") && (d.get ("changeStatus")).asStr.isSome then ["status"] else []) ++
  (if d.hasKey ("addComment") && !(normalize_comments (d.get ("addComment"))).isEmpty
   then ["comments"] else [])

def specEditCalls (d : Doc) (k : String) : List RemoteCall :=
  (match d.hasKey ("summary"), (d.get ("summary")).asStr with
   | true, some s => [RemoteCall.update_summary k s]
   | _, _ => []) ++
  (match d.hasKey ("description"), (d.get ("description")).asStr with
   | true, some s => [RemoteCall.update_description k s]
   | _, _ => []) ++
  (match d.hasKey ("fields"), d.get ("fields") with
   | true, JValue.obj f => [RemoteCall.update_issue_fields k f]
   | _, _ => []) ++
  (match d.hasKey ("changeStatus"), (d.get ("changeStatus")).asStr with
   | true, some st => [RemoteCall.transition_issue k st]
   | _, _ => []) ++
  (if d.hasKey ("addComment")
   then (normalize_comments (d.get ("addComment"))).map (RemoteCall.add_comment k) else []) ++
  [RemoteCall.get_issue k]

/-- The Edit document of the C1 scenario: a status change that the remote
side rejects. -/
def c1doc : Doc :=
  [("type", JValue.str ("Edit")), ("issueKey", JValue.str ("KAN-1")),
   ("changeStatus", JValue.str ("Bogus"))]

/-- Like `connOK` but every status transition is rejected with `e`. -/
def connTransFailWith (e : JiraError) : Connector :=
  { connOK with transition_issue := fun _ _ => Except.error e }

/-- The concrete Create document of the C3 witness. -/
def c3docW : Doc :=
  [("type", JValue.str ("Create")), ("project", JValue.str ("KAN")),
   ("summary", JValue.str ("S")), ("changeStatus", JValue.str ("Done")),
   ("addComment", JValue.arr [JValue.str ("a"), JValue.str ("b")])]

/-- A parser that rejects every text (both the strict and the fallback
attempts fail on it). -/
def loadsReject : String → Except String Doc := fun _ => Except.error ("no json")

/-- Like `connOK` but every comment call is rejected with `err400`. -/
def connCommentFail : Connector :=
  { connOK with add_comment := fun _ _ => Except.error err400 }

/-- The Edit document of the C9 witness: a summary update followed by a
status change. -/
def c9editdoc : Doc :=
  [("type", JValue.str ("Edit")), ("issueKey", JValue.str ("KAN-1")),
   ("summary", JValue.str ("s")), ("changeStatus", JValue.str ("Bogus"))]

/-- The Edit document of the C4 counterexample: `changeStatus` is present
but carries a number, not a string. -/
def c4doc : Doc :=
  [("type", JValue.str ("Edit")), ("issueKey", JValue.str ("KAN-1")),
   ("changeStatus", JValue.num 5)]

/-- The Edit document of the C10 witness: string summary and description
plus a numeric `fields` entry. -/
def c10doc : Doc :=
  [("type", JValue.str ("Edit")), ("issueKey", JValue.str ("KAN-1")),
   ("summary", JValue.str ("s")), ("description", JValue.str ("d")),
   ("fields", JValue.num 3)]

/-- The GetIssue document of the C5 counterexample: `issueKey` is present
and non-null but falsy (the empty string), `key` carries the real key. -/
def c5doc : Doc :=
  [("type", JValue.str ("GetIssue")), ("issueKey", JValue.str ("")),
   ("key", JValue.str ("KAN-9"))]

theorem bind_eq_ok {α β : Type} {x : TransM α} {f : α → TransM β} {tr tr' : List RemoteCall}
    {a : α} (h : x tr = (tr', Except.ok a)) : TransM.bind x f tr = f a tr' := by
  unfold TransM.bind
  rw [h]

theorem bind_eq_err {α β : Type} {x : TransM α} {f : α → TransM β} {tr tr' : List RemoteCall}
    {e : PyError} (h : x tr = (tr', Except.error e)) :
    TransM.bind x f tr = (tr', Except.error e) := by
  unfold TransM.bind
  rw [h]

theorem remote_ok_apply {α : Type} (call : RemoteCall) (a : α) (tr : List RemoteCall) :
    remote call (Except.ok a) tr = (tr ++ [call], Except.ok a) := rfl

theorem remote_err_apply {α : Type} (call : RemoteCall) (e : JiraError) (tr : List RemoteCall) :
    remote (α := α) call (Except.error e) tr =
      (tr ++ [call], Except.error (PyError.jiraError e)) := rfl

theorem Doc.get_of_not_hasKey {d : Doc} {k : String} (h : d.hasKey k = false) :
    d.get k = JValue.null := by
  unfold Doc.hasKey at h
  unfold Doc.get Doc.getD
  cases hf : d.find k with
  | none => rfl
  | some v => rw [hf] at h; simp [Option.isSome] at h

theorem Doc.get_of_hasKey {d : Doc} {k : String} {v : JValue} (h : d.find k = some v) :
    d.get k = v := by
  unfold Doc.get Doc.getD
  rw [h]

theorem post_comments_nil (c : Connector) (key : String) :
    post_comments c key [] = TransM.pure () := rfl

theorem post_comments_cons (c : Connector) (key b : String) (rest : List String) :
    post_comments c key (b :: rest) =
      TransM.bind (remote (RemoteCall.add_comment key b) (c.add_comment key b))
        fun _ => post_comments c key rest := rfl

/-- The comment loop on a list of bodies the connector accepts: one
`add_comment` call per body, in order. -/
theorem post_comments_ok {c : Connector} {key : String} {bs : List String}
    (h : ∀ b ∈ bs, c.add_comment key b = Except.ok ()) (tr : List RemoteCall) :
    post_comments c key bs tr = (tr ++ bs.map (RemoteCall.add_comment key), Except.ok ()) := by
  induction bs generalizing tr with
  | nil => simp [post_comments_nil, TransM.pure]
  | cons b rest ih =>
      have hb : c.add_comment key b = Except.ok () := h b (by simp)
      have hrest : ∀ x ∈ rest, c.add_comment key x = Except.ok () := by
        intro x hx
        exact h x (by simp [hx])
      rw [post_comments_cons, hb, bind_eq_ok (remote_ok_apply _ _ _), ih hrest]
      simp

/-- The comment loop stops at the first body the connector rejects: the
accepted prefix and the failing call are on the trace, nothing more. -/
theorem post_comments_fail {c : Connector} {key : String} {bs1 : List String} {b : String}
    {bs2 : List String} {e : JiraError}
    (h1 : ∀ x ∈ bs1, c.add_comment key x = Except.ok ())
    (h2 : c.add_comment key b = Except.error e) (tr : List RemoteCall) :
    post_comments c key (bs1 ++ b :: bs2) tr =
      (tr ++ bs1.map (RemoteCall.add_comment key) ++ [RemoteCall.add_comment key b],
       Except.error (PyError.jiraError e)) := by
  induction bs1 generalizing tr with
  | nil =>
      rw [List.nil_append, post_comments_cons, h2, bind_eq_err (remote_err_apply _ _ _)]
      simp
  | cons x rest ih =>
      have hx : c.add_comment key x = Except.ok () := h1 x (by simp)
      have hrest : ∀ y ∈ rest, c.add_comment key y = Except.ok () := by
        intro y hy
        exact h1 y (by simp [hy])
      rw [List.cons_append, post_comments_cons, hx, bind_eq_ok (remote_ok_apply _ _ _), ih hrest]
      simp

theorem catchJira_of_ok {m : TransM JValue} {tr tr' : List RemoteCall} {v : JValue}
    (h : m tr = (tr', Except.ok v)) : catchJira m tr = (tr', Except.ok v) := by
  unfold catchJira
  rw [h]

theorem catchJira_of_jira {m : TransM JValue} {tr tr' : List RemoteCall} {e : JiraError}
    (h : m tr = (tr', Except.error (PyError.jiraError e))) :
    catchJira m tr = (tr', Except.ok (jiraErrorEnvelope e)) := by
  unfold catchJira
  rw [h]

theorem catchJira_of_value {m : TransM JValue} {tr tr' : List RemoteCall} {msg : String}
    (h : m tr = (tr', Except.error (PyError.valueError msg))) :
    catchJira m tr = (tr', Except.error (PyError.valueError msg)) := by
  unfold catchJira
  rw [h]

/-- On an already-parsed dict, `execute` is the `try/except`-wrapped
dispatch of the matched handler. -/
theorem execute_dict_eq {c : Connector} {data : Doc} {t : String} {m : TransM JValue}
    (loads : String → Except String Doc)
    (hty : (data.get ("type")).asStr = some t)
    (hdisp : dispatchCmd c (pyLower t) data = some m) (tr : List RemoteCall) :
    execute loads c (Payload.dict data) tr = catchJira m tr := by
  simp only [execute, parse_payload, hty, hdisp]

/-- The Create handler on a valid document when every remote call succeeds:
create, then transition, then one comment per normalized body in order,
then the final fetch, whose serialization is the returned issue payload. -/
theorem handle_create_ok {c : Connector} {data : Doc} {p s st : String} {ef : Doc}
    {i r : Issue}
    (hp : (data.get ("project")).asStr = some p)
    (hs : (data.get ("summary")).asStr = some s)
    (hf : pyOr (data.get ("fields")) (JValue.obj []) = JValue.obj ef)
    (hcr : c.create_issue p s (pyOr (data.get ("description")) (JValue.str ("")))
        (pyOr (data.get ("issueType")) (pyOr (data.get ("issue_type")) (JValue.str ("Task")))) ef
        = Except.ok i)
    (hst : (data.get ("changeStatus")).asStr = some st)
    (htr : c.transition_issue i.key st = Except.ok ())
    (hcm : ∀ b ∈ normalize_comments (data.get ("addComment")), c.add_comment i.key b = Except.ok ())
    (hget : c.get_issue i.key = Except.ok r) (tr : List RemoteCall) :
    handle_create c data tr =
      (tr ++
        [RemoteCall.create_issue p s (pyOr (data.get ("description")) (JValue.str ("")))
           (pyOr (data.get ("issueType")) (pyOr (data.get ("issue_type")) (JValue.str ("Task")))) ef,
         RemoteCall.transition_issue i.key st] ++
        (normalize_comments (data.get ("addComment"))).map (RemoteCall.add_comment i.key) ++
        [RemoteCall.get_issue i.key],
       Except.ok (JValue.obj
         [("ok", JValue.bool true), ("type", JValue.str ("Create")),
          ("issue", serialize_issue r)])) := by
  simp only [handle_create, hp, hs, hf, hcr, hst, htr, hget, TransM.bind, TransM.pure, remote,
    post_comments_ok hcm]
  simp [List.append_assoc]

theorem edit_summary_step_spec (i : Issue) (d : Doc) (k : String) (tr : List RemoteCall) :
    edit_summary_step (connEdit i) d k tr =
      (tr ++ (match d.hasKey ("summary"), (d.get ("summary")).asStr with
              | true, some s => [RemoteCall.update_summary k s]
              | _, _ => []),
       Except.ok (if d.hasKey ("summary") && (d.get ("summary")).asStr.isSome
                  then [("summary" : String)] else [])) := by
  unfold edit_summary_step
  cases hk : d.hasKey ("summary") <;> cases hs : (d.get ("summary")).asStr <;>
    simp [hk, hs, TransM.bind, TransM.pure, remote, connEdit, connOK]

theorem edit_description_step_spec (i : Issue) (d : Doc) (k : String) (tr : List RemoteCall) :
    edit_description_step (connEdit i) d k tr =
      (tr ++ (match d.hasKey ("description"), (d.get ("description")).asStr with
              | true, some s => [RemoteCall.update_description k s]
              | _, _ => []),
       Except.ok (if d.hasKey ("description") && (d.get ("description")).asStr.isSome
                  then [("description" : String)] else [])) := by
  unfold edit_description_step
  cases hk : d.hasKey ("description") <;> cases hs : (d.get ("description")).asStr <;>
    simp [hk, hs, TransM.bind, TransM.pure, remote, connEdit, connOK]

theorem edit_fields_step_spec (i : Issue) (d : Doc) (k : String) (tr : List RemoteCall)
    (hf : d.hasKey ("fields") = false ∨ ∃ f, d.get ("fields") = JValue.obj f) :
    edit_fields_step (connEdit i) d k tr =
      (tr ++ (match d.hasKey ("fields"), d.get ("fields") with
              | true, JValue.obj f => [RemoteCall.update_issue_fields k f]
              | _, _ => []),
       Except.ok (if d.hasKey ("fields") then [("fields" : String)] else [])) := by
  unfold edit_fields_step
  rcases hf with hf | ⟨f, hf⟩
  · simp [hf, TransM.pure]
  · cases hk : d.hasKey ("fields") <;>
      simp [hk, hf, TransM.bind, TransM.pure, remote, connEdit, connOK]

theorem edit_status_step_spec (i : Issue) (d : Doc) (k : String) (tr : List RemoteCall) :
    edit_status_step (connEdit i) d k tr =
      (tr ++ (match d.hasKey ("changeStatus"), (d.get ("changeStatus")).asStr with
              | true, some st => [RemoteCall.transition_issue k st]
              | _, _ => []),
       Except.ok (if d.hasKey ("changeStatus") && (d.get ("changeStatus")).asStr.isSome
                  then [("status" : String)] else [])) := by
  unfold edit_status_step
  cases hk : d.hasKey ("changeStatus") <;> cases hs : (d.get ("changeStatus")).asStr <;>
    simp [hk, hs, TransM.bind, TransM.pure, remote, connEdit, connOK]

theorem edit_comments_step_spec (i : Issue) (d : Doc) (k : String) (tr : List RemoteCall) :
    edit_comments_step (connEdit i) d k tr =
      (tr ++ (if d.hasKey ("addComment")
              then (normalize_comments (d.get ("addComment"))).map (RemoteCall.add_comment k)
              else []),
       Except.ok (if d.hasKey ("addComment") && !(normalize_comments (d.get ("addComment"))).isEmpty
                  then [("comments" : String)] else [])) := by
  unfold edit_comments_step
  cases hk : d.hasKey ("addComment")
  · simp [TransM.pure]
  · have hcm : ∀ b ∈ normalize_comments (d.get ("addComment")),
        (connEdit i).add_comment k b = Except.ok () := fun b _ => rfl
    simp only [post_comments_ok hcm, TransM.bind, TransM.pure, if_true]
    cases hempty : (normalize_comments (d.get ("addComment"))).isEmpty <;> simp [hempty]

/-- The full Edit handler over a successful connector: the remote calls are
exactly `specEditCalls`, the returned `actions` exactly `specEditActions`. -/
theorem edit_run_spec (loads : String → Except String Doc) (i : Issue) {d : Doc} {ty k : String}
    (hty : (d.get ("type")).asStr = some ty)
    (hlow : pyLower ty = "edit")
    (hkey : (resolveIssueKey d).asStr = some k)
    (hf : d.hasKey ("fields") = false ∨ ∃ f, d.get ("fields") = JValue.obj f) :
    run (execute loads (connEdit i) (Payload.dict d)) =
      (specEditCalls d k,
       Except.ok (JValue.obj
         [("ok", JValue.bool true), ("type", JValue.str ("Edit")),
          ("issue", serialize_issue i),
          ("actions", JValue.arr ((specEditActions d).map JValue.str))])) := by
  have hdisp : dispatchCmd (connEdit i) (pyLower ty) d = some (handle_edit (connEdit i) d) := by
    rw [hlow]
    rfl
  unfold run
  rw [execute_dict_eq loads hty hdisp]
  apply catchJira_of_ok
  simp only [handle_edit, hkey]
  rw [bind_eq_ok (edit_summary_step_spec i d k [])]
  rw [bind_eq_ok (edit_description_step_spec i d k _)]
  rw [bind_eq_ok (edit_fields_step_spec i d k _ hf)]
  rw [bind_eq_ok (edit_status_step_spec i d k _)]
  rw [bind_eq_ok (edit_comments_step_spec i d k _)]
  have hg : (connEdit i).get_issue k = Except.ok i := rfl
  rw [hg, bind_eq_ok (remote_ok_apply _ _ _)]
  unfold TransM.pure specEditCalls specEditActions
  simp [List.append_assoc]

/-!
## Claims
-/

/-- C1, counterexample: a remote rejection during `transition` inside an
Edit command is recovered into an envelope whose `error` field is the
literal `"JIRAError"`, not `"RemoteError"` as the claim states. -/
theorem c1_counterexample :
    run (execute loads0 connTransFail (Payload.dict c1doc)) =
      ([RemoteCall.transition_issue ("KAN-1") ("Bogus")],
       Except.ok (JValue.obj
         [("ok", JValue.bool false), ("error", JValue.str ("JIRAError")),
          ("status_code", JValue.num 400), ("message", JValue.str ("bad transition"))])) ∧
    JValue.str ("JIRAError") ≠ JValue.str ("RemoteError") := by
  refine ⟨rfl, ?_⟩
  intro h
  injection h with h'
  exact absurd h' (by decide)

/-- C1, amended: a `JIRAError` raised by any remote call during dispatch is
caught by `execute` and returned as the structured envelope
`{ok: false, error: "JIRAError", status_code, message}` (and this is the
only recovered path: a `ValueError` raised during dispatch propagates to
the caller unrecovered, a successful dispatch passes through); in
particular a remote rejection during `transition` inside an Edit command
yields that envelope and does not raise. -/
theorem c1_remote_errors_recovered (loads : String → Except String Doc) (c : Connector)
    (data : Doc) (ty : String) (m : TransM JValue) (tr : List RemoteCall)
    (hty : (data.get ("type")).asStr = some ty)
    (hdisp : dispatchCmd c (pyLower ty) data = some m) :
    (∀ e : JiraError, m [] = (tr, Except.error (PyError.jiraError e)) →
        run (execute loads c (Payload.dict data)) = (tr, Except.ok (jiraErrorEnvelope e))) ∧
    (∀ msg : String, m [] = (tr, Except.error (PyError.valueError msg)) →
        run (execute loads c (Payload.dict data)) = (tr, Except.error (PyError.valueError msg))) ∧
    (∀ v : JValue, m [] = (tr, Except.ok v) →
        run (execute loads c (Payload.dict data)) = (tr, Except.ok v)) ∧
    (∀ e : JiraError,
        run (execute loads0 (connTransFailWith e) (Payload.dict c1doc)) =
          ([RemoteCall.transition_issue ("KAN-1") ("Bogus")], Except.ok (jiraErrorEnvelope e))) := by
  refine ⟨?_, ?_, ?_, fun e => rfl⟩ <;> intro x hx <;>
    (unfold run; rw [execute_dict_eq loads hty hdisp])
  · exact catchJira_of_jira hx
  · exact catchJira_of_value hx
  · exact catchJira_of_ok hx

/-- C1, witness: the amended theorem applied to the rejected transition of
`c1doc` over `connTransFail`. -/
theorem c1_witness :
    run (execute loads0 connTransFail (Payload.dict c1doc)) =
      ([RemoteCall.transition_issue ("KAN-1") ("Bogus")], Except.ok (jiraErrorEnvelope err400)) :=
  (c1_remote_errors_recovered loads0 connTransFail c1doc ("Edit")
      (handle_edit connTransFail c1doc) [RemoteCall.transition_issue ("KAN-1") ("Bogus")]
      rfl rfl).1 err400 rfl

/-- C3: a Create command with a string `changeStatus` (and any `addComment`
value) issues remote calls in exactly the order create → transition → one
comment call per normalized comment, preserving order → final fetch, and
the returned issue payload is the serialization of that final refreshed
fetch, not of the create response. -/
theorem c3_create_dispatch_order {c : Connector} {data : Doc} {ty p s st : String} {ef : Doc}
    {i r : Issue} (loads : String → Except String Doc)
    (hty : (data.get ("type")).asStr = some ty)
    (hlow : pyLower ty = "create")
    (hp : (data.get ("project")).asStr = some p)
    (hs : (data.get ("summary")).asStr = some s)
    (hf : pyOr (data.get ("fields")) (JValue.obj []) = JValue.obj ef)
    (hcr : c.create_issue p s (pyOr (data.get ("description")) (JValue.str ("")))
        (pyOr (data.get ("issueType")) (pyOr (data.get ("issue_type")) (JValue.str ("Task")))) ef
        = Except.ok i)
    (hst : (data.get ("changeStatus")).asStr = some st)
    (htr : c.transition_issue i.key st = Except.ok ())
    (hcm : ∀ b ∈ normalize_comments (data.get ("addComment")), c.add_comment i.key b = Except.ok ())
    (hget : c.get_issue i.key = Except.ok r) :
    run (execute loads c (Payload.dict data)) =
      ([RemoteCall.create_issue p s (pyOr (data.get ("description")) (JValue.str ("")))
          (pyOr (data.get ("issueType")) (pyOr (data.get ("issue_type")) (JValue.str ("Task")))) ef,
        RemoteCall.transition_issue i.key st] ++
       (normalize_comments (data.get ("addComment"))).map (RemoteCall.add_comment i.key) ++
       [RemoteCall.get_issue i.key],
       Except.ok (JValue.obj
         [("ok", JValue.bool true), ("type", JValue.str ("Create")),
          ("issue", serialize_issue r)])) := by
  have hdisp : dispatchCmd c (pyLower ty) data = some (handle_create c data) := by
    rw [hlow]
    rfl
  unfold run
  rw [execute_dict_eq loads hty hdisp,
    catchJira_of_ok (handle_create_ok hp hs hf hcr hst htr hcm hget [])]
  simp

/-- C3, witness: the dispatch-order theorem applied to a concrete Create
command over `connOK`. -/
theorem c3_witness :
    run (execute loads0 connOK (Payload.dict c3docW)) =
      ([RemoteCall.create_issue ("KAN") ("S") (JValue.str ("")) (JValue.str ("Task")) [],
        RemoteCall.transition_issue ("KAN-1") ("Done")] ++
       [RemoteCall.add_comment ("KAN-1") ("a"), RemoteCall.add_comment ("KAN-1") ("b")] ++
       [RemoteCall.get_issue ("KAN-1")],
       Except.ok (JValue.obj
         [("ok", JValue.bool true), ("type", JValue.str ("Create")),
          ("issue", serialize_issue { issue0 with key := ("KAN-1" : String) })])) :=
  @c3_create_dispatch_order connOK c3docW ("Create") ("KAN") ("S") ("Done") [] issue0
    { issue0 with key := ("KAN-1" : String) } loads0 rfl rfl rfl rfl rfl rfl rfl rfl
    (fun _ _ => rfl) rfl

/-- C7: comment normalization maps `None` to the empty sequence, a string
to the one-element sequence of itself, a sequence to its element-wise
stringification preserving order with nothing dropped, and any other
scalar to the one-element sequence of its string form; consequently an
Edit command with `addComment: s` issues exactly one comment call with
body `s`, with `addComment: [a, b]` exactly two ordered comment calls with
bodies `a` then `b`, and with `addComment: null` or no `addComment` at all
zero comment calls. -/
theorem c7_comment_normalization :
    (normalize_comments JValue.null = []) ∧
    (∀ s : String, normalize_comments (JValue.str s) = [s]) ∧
    (∀ xs : List JValue, normalize_comments (JValue.arr xs) = xs.map pyStr) ∧
    (∀ b : Bool, normalize_comments (JValue.bool b) = [pyStr (JValue.bool b)]) ∧
    (∀ n : Int, normalize_comments (JValue.num n) = [pyStr (JValue.num n)]) ∧
    (∀ s : String,
      (run (execute loads0 connOK (Payload.dict
        [("type", JValue.str ("Edit")), ("issueKey", JValue.str ("KAN-1")),
         ("addComment", JValue.str s)]))).1 =
      [RemoteCall.add_comment ("KAN-1") s, RemoteCall.get_issue ("KAN-1")]) ∧
    (∀ a b : String,
      (run (execute loads0 connOK (Payload.dict
        [("type", JValue.str ("Edit")), ("issueKey", JValue.str ("KAN-1")),
         ("addComment", JValue.arr [JValue.str a, JValue.str b])]))).1 =
      [RemoteCall.add_comment ("KAN-1") a, RemoteCall.add_comment ("KAN-1") b,
       RemoteCall.get_issue ("KAN-1")]) ∧
    ((run (execute loads0 connOK (Payload.dict
        [("type", JValue.str ("Edit")), ("issueKey", JValue.str ("KAN-1")),
         ("addComment", JValue.null)]))).1 = [RemoteCall.get_issue ("KAN-1")]) ∧
    ((run (execute loads0 connOK (Payload.dict
        [("type", JValue.str ("Edit")), ("issueKey", JValue.str ("KAN-1"))]))).1 =
      [RemoteCall.get_issue ("KAN-1")]) :=
  ⟨rfl, fun _ => rfl, fun _ => rfl, fun _ => rfl, fun _ => rfl,
   fun _ => rfl, fun _ _ => rfl, rfl, rfl⟩

/-- C8: a text payload is first parsed strictly; on failure the
single-quote-to-double-quote substitution is applied and the parse is
re-attempted; if the fallback parse also fails, the (second) parse error
propagates to the caller and is not converted into a response envelope,
with no remote call issued. -/
theorem c8_parse_fallback (loads : String → Except String Doc) (c : Connector) (t : String) :
    (∀ d : Doc, loads t.trim = Except.ok d →
        execute loads c (Payload.text t) = execute loads c (Payload.dict d)) ∧
    (∀ (e1 : String) (d : Doc), loads t.trim = Except.error e1 →
        loads (t.trim.replace ("\x27") ("\x22")) = Except.ok d →
        execute loads c (Payload.text t) = execute loads c (Payload.dict d)) ∧
    (∀ e1 e2 : String, loads t.trim = Except.error e1 →
        loads (t.trim.replace ("\x27") ("\x22")) = Except.error e2 →
        run (execute loads c (Payload.text t)) =
          ([], Except.error (PyError.jsonDecodeError e2))) := by
  refine ⟨?_, ?_, ?_⟩
  · intro d h
    funext tr
    simp only [execute, parse_payload, h]
  · intro e1 d h1 h2
    funext tr
    simp only [execute, parse_payload, h1, h2]
  · intro e1 e2 h1 h2
    unfold run
    simp only [execute, parse_payload, h1, h2]

/-- C8, witness: with a parser rejecting both attempts, `execute` on a text
payload propagates the parse error with zero remote calls. -/
theorem c8_witness :
    run (execute loadsReject connOK (Payload.text ("x"))) =
      ([], Except.error (PyError.jsonDecodeError ("no json"))) :=
  (c8_parse_fallback loadsReject connOK ("x")).2.2 ("no json") ("no json") rfl rfl

theorem resolveIssueKey_missing {d : Doc}
    (h1 : d.hasKey ("issueKey") = false) (h2 : d.hasKey ("key") = false)
    (h3 : d.hasKey ("issue") = false) : resolveIssueKey d = JValue.null := by
  simp [resolveIssueKey, Doc.get_of_not_hasKey h1, Doc.get_of_not_hasKey h2,
    Doc.get_of_not_hasKey h3, pyOr, JValue.truthy]

theorem handle_create_missing {c : Connector} {d : Doc}
    (h : d.hasKey ("project") = false ∨ d.hasKey ("summary") = false) :
    handle_create c d [] =
      ([], Except.error (PyError.valueError
        ("Create requires \x22project\x22 (str) and \x22summary\x22 (str)."))) := by
  rcases h with h | h
  · have h1 : (d.get ("project")).asStr = none := by
      rw [Doc.get_of_not_hasKey h]
      rfl
    cases h2 : (d.get ("summary")).asStr <;> simp [handle_create, h1, h2, raiseValue]
  · have h1 : (d.get ("summary")).asStr = none := by
      rw [Doc.get_of_not_hasKey h]
      rfl
    cases h2 : (d.get ("project")).asStr <;> simp [handle_create, h1, h2, raiseValue]

/-- C2: for every command kind with a required field, a document omitting
that field (for Edit/GetIssue/GetComments/GetTransitions: omitting the
issue key under all three synonyms) makes `execute` raise a `ValueError`
with zero remote calls issued — no partial side effects; the remaining
kind, GetMyOpenIssues, has no required field. -/
theorem c2_missing_required_no_calls (loads : String → Except String Doc) (c : Connector)
    (d : Doc) (ty : String)
    (hty : (d.get ("type")).asStr = some ty)
    (hmiss :
      pyLower ty = "create" ∧ (d.hasKey ("project") = false ∨ d.hasKey ("summary") = false) ∨
      (pyLower ty = "edit" ∨ pyLower ty = "getissue" ∨ pyLower ty = "getcomments" ∨
          pyLower ty = "gettransitions") ∧
        d.hasKey ("issueKey") = false ∧ d.hasKey ("key") = false ∧ d.hasKey ("issue") = false ∨
      pyLower ty = "search" ∧ d.hasKey ("jql") = false ∨
      pyLower ty = "getprojectissues" ∧ d.hasKey ("project") = false) :
    ∃ msg, run (execute loads c (Payload.dict d)) = ([], Except.error (PyError.valueError msg)) := by
  rcases hmiss with ⟨hlow, h⟩ | ⟨hlow, h1, h2, h3⟩ | ⟨hlow, h⟩ | ⟨hlow, h⟩
  · have hdisp : dispatchCmd c (pyLower ty) d = some (handle_create c d) := by
      rw [hlow]
      rfl
    refine ⟨"Create requires \x22project\x22 (str) and \x22summary\x22 (str).", ?_⟩
    unfold run
    rw [execute_dict_eq loads hty hdisp]
    exact catchJira_of_value (handle_create_missing h)
  · have hkey : (resolveIssueKey d).asStr = none := by
      rw [resolveIssueKey_missing h1 h2 h3]
      rfl
    rcases hlow with hlow | hlow | hlow | hlow
    · have hdisp : dispatchCmd c (pyLower ty) d = some (handle_edit c d) := by
        rw [hlow]
        rfl
      refine ⟨"Edit requires \x22issueKey\x22 (or \x22key\x22/\x22issue\x22) as a string.", ?_⟩
      unfold run
      rw [execute_dict_eq loads hty hdisp]
      exact catchJira_of_value (by simp [handle_edit, hkey, raiseValue])
    · have hdisp : dispatchCmd c (pyLower ty) d = some (handle_get_issue c d) := by
        rw [hlow]
        rfl
      refine ⟨"GetIssue requires \x22issueKey\x22 (or \x22key\x22/\x22issue\x22).", ?_⟩
      unfold run
      rw [execute_dict_eq loads hty hdisp]
      exact catchJira_of_value (by simp [handle_get_issue, hkey, raiseValue])
    · have hdisp : dispatchCmd c (pyLower ty) d = some (handle_get_comments c d) := by
        rw [hlow]
        rfl
      refine ⟨"GetComments requires \x22issueKey\x22 (or \x22key\x22/\x22issue\x22).", ?_⟩
      unfold run
      rw [execute_dict_eq loads hty hdisp]
      exact catchJira_of_value (by simp [handle_get_comments, hkey, raiseValue])
    · have hdisp : dispatchCmd c (pyLower ty) d = some (handle_get_transitions c d) := by
        rw [hlow]
        rfl
      refine ⟨"GetTransitions requires \x22issueKey\x22 (or \x22key\x22/\x22issue\x22).", ?_⟩
      unfold run
      rw [execute_dict_eq loads hty hdisp]
      exact catchJira_of_value (by simp [handle_get_transitions, hkey, raiseValue])
  · have hdisp : dispatchCmd c (pyLower ty) d = some (handle_search c d) := by
      rw [hlow]
      rfl
    have hjql : (d.get ("jql")).asStr = none := by
      rw [Doc.get_of_not_hasKey h]
      rfl
    refine ⟨"Search requires \x22jql\x22 (str).", ?_⟩
    unfold run
    rw [execute_dict_eq loads hty hdisp]
    exact catchJira_of_value (by simp [handle_search, hjql, raiseValue])
  · have hdisp : dispatchCmd c (pyLower ty) d = some (handle_get_project_issues c d) := by
      rw [hlow]
      rfl
    have hproj : (d.get ("project")).asStr = none := by
      rw [Doc.get_of_not_hasKey h]
      rfl
    refine ⟨"GetProjectIssues requires \x22project\x22 (str).", ?_⟩
    unfold run
    rw [execute_dict_eq loads hty hdisp]
    exact catchJira_of_value (by simp [handle_get_project_issues, hproj, raiseValue])

/-- C2, witness: a Search command without `jql` raises with no remote call. -/
theorem c2_witness :
    ∃ msg, run (execute loads0 connOK (Payload.dict [("type", JValue.str ("Search"))])) =
      ([], Except.error (PyError.valueError msg)) :=
  c2_missing_required_no_calls loads0 connOK [("type", JValue.str ("Search"))] ("Search")
    rfl (Or.inr (Or.inr (Or.inl ⟨rfl, rfl⟩)))

/-- The Create handler when the post-create transition is rejected: the
create call is already on the trace (committed), no further call follows,
and the `JIRAError` propagates out of the handler. -/
theorem handle_create_transition_fail {c : Connector} {data : Doc} {p s st : String} {ef : Doc}
    {i : Issue} {e : JiraError}
    (hp : (data.get ("project")).asStr = some p)
    (hs : (data.get ("summary")).asStr = some s)
    (hf : pyOr (data.get ("fields")) (JValue.obj []) = JValue.obj ef)
    (hcr : c.create_issue p s (pyOr (data.get ("description")) (JValue.str ("")))
        (pyOr (data.get ("issueType")) (pyOr (data.get ("issue_type")) (JValue.str ("Task")))) ef
        = Except.ok i)
    (hst : (data.get ("changeStatus")).asStr = some st)
    (htr : c.transition_issue i.key st = Except.error e) (tr : List RemoteCall) :
    handle_create c data tr =
      (tr ++
        [RemoteCall.create_issue p s (pyOr (data.get ("description")) (JValue.str ("")))
           (pyOr (data.get ("issueType")) (pyOr (data.get ("issue_type")) (JValue.str ("Task")))) ef,
         RemoteCall.transition_issue i.key st],
       Except.error (PyError.jiraError e)) := by
  simp only [handle_create, hp, hs, hf, hcr, hst, htr, TransM.bind, remote]
  simp [List.append_assoc]

/-- The Create handler when a post-create comment is rejected: creation,
transition and the accepted comment prefix are already on the trace
(committed), the failing comment call ends it, and the `JIRAError`
propagates out of the handler. -/
theorem handle_create_comment_fail {c : Connector} {data : Doc} {p s st b : String} {ef : Doc}
    {i : Issue} {e : JiraError} {bs1 bs2 : List String}
    (hp : (data.get ("project")).asStr = some p)
    (hs : (data.get ("summary")).asStr = some s)
    (hf : pyOr (data.get ("fields")) (JValue.obj []) = JValue.obj ef)
    (hcr : c.create_issue p s (pyOr (data.get ("description")) (JValue.str ("")))
        (pyOr (data.get ("issueType")) (pyOr (data.get ("issue_type")) (JValue.str ("Task")))) ef
        = Except.ok i)
    (hst : (data.get ("changeStatus")).asStr = some st)
    (htr : c.transition_issue i.key st = Except.ok ())
    (hnc : normalize_comments (data.get ("addComment")) = bs1 ++ b :: bs2)
    (hok : ∀ x ∈ bs1, c.add_comment i.key x = Except.ok ())
    (hb : c.add_comment i.key b = Except.error e) (tr : List RemoteCall) :
    handle_create c data tr =
      (tr ++
        [RemoteCall.create_issue p s (pyOr (data.get ("description")) (JValue.str ("")))
           (pyOr (data.get ("issueType")) (pyOr (data.get ("issue_type")) (JValue.str ("Task")))) ef,
         RemoteCall.transition_issue i.key st] ++
        bs1.map (RemoteCall.add_comment i.key) ++ [RemoteCall.add_comment i.key b],
       Except.error (PyError.jiraError e)) := by
  simp only [handle_create, hp, hs, hf, hcr, hst, htr, hnc, TransM.bind, remote,
    post_comments_fail hok hb]
  simp [List.append_assoc]

/-- The Edit handler when the status transition is rejected after a summary
update: the summary update is already on the trace (committed), no further
call follows, and the `JIRAError` propagates out of the handler. -/
theorem handle_edit_transition_fail {c : Connector} {d : Doc} {k s st : String}
    {iU : Issue} {e : JiraError}
    (hkey : (resolveIssueKey d).asStr = some k)
    (hsk : d.hasKey ("summary") = true)
    (hsv : (d.get ("summary")).asStr = some s)
    (hdk : d.hasKey ("description") = false)
    (hfk : d.hasKey ("fields") = false)
    (hck : d.hasKey ("changeStatus") = true)
    (hcv : (d.get ("changeStatus")).asStr = some st)
    (hsu : c.update_summary k s = Except.ok iU)
    (htr : c.transition_issue k st = Except.error e) (tr : List RemoteCall) :
    handle_edit c d tr =
      (tr ++ [RemoteCall.update_summary k s, RemoteCall.transition_issue k st],
       Except.error (PyError.jiraError e)) := by
  simp only [handle_edit, hkey, edit_summary_step, edit_description_step, edit_fields_step,
    edit_status_step, hsk, hsv, hdk, hfk, hck, hcv, hsu, htr, TransM.bind, TransM.pure, remote]
  simp [TransM.bind, TransM.pure, remote, List.append_assoc]

/-- C9: the side-effecting steps of Create and Edit are sequential and not
transactional: when a later step fails with a remote-service error, the
remote calls of all earlier steps have already been issued and remain the
trace's prefix — the translator issues no further or compensating call and
returns the remote-error envelope.  Three scenarios: a Create whose
transition fails (creation committed), a Create whose `j`-th comment fails
(creation, transition and the first `j-1` comments committed), and an Edit
whose transition fails after a summary update (update committed). -/
theorem c9_no_rollback {c : Connector} {data d : Doc} {ty ty' p s st k se ste : String}
    {ef : Doc} {i iU : Issue} {e : JiraError} {bs1 bs2 : List String} {b : String}
    (loads : String → Except String Doc)
    (hty : (data.get ("type")).asStr = some ty)
    (hlow : pyLower ty = "create")
    (hp : (data.get ("project")).asStr = some p)
    (hs : (data.get ("summary")).asStr = some s)
    (hf : pyOr (data.get ("fields")) (JValue.obj []) = JValue.obj ef)
    (hcr : c.create_issue p s (pyOr (data.get ("description")) (JValue.str ("")))
        (pyOr (data.get ("issueType")) (pyOr (data.get ("issue_type")) (JValue.str ("Task")))) ef
        = Except.ok i)
    (hst : (data.get ("changeStatus")).asStr = some st)
    (hty' : (d.get ("type")).asStr = some ty')
    (hlow' : pyLower ty' = "edit")
    (hkey : (resolveIssueKey d).asStr = some k)
    (hsk : d.hasKey ("summary") = true)
    (hsv : (d.get ("summary")).asStr = some se)
    (hdk : d.hasKey ("description") = false)
    (hfk : d.hasKey ("fields") = false)
    (hck : d.hasKey ("changeStatus") = true)
    (hcv : (d.get ("changeStatus")).asStr = some ste) :
    (c.transition_issue i.key st = Except.error e →
      run (execute loads c (Payload.dict data)) =
        ([RemoteCall.create_issue p s (pyOr (data.get ("description")) (JValue.str ("")))
            (pyOr (data.get ("issueType")) (pyOr (data.get ("issue_type")) (JValue.str ("Task")))) ef,
          RemoteCall.transition_issue i.key st],
         Except.ok (jiraErrorEnvelope e))) ∧
    (c.transition_issue i.key st = Except.ok () →
      normalize_comments (data.get ("addComment")) = bs1 ++ b :: bs2 →
      (∀ x ∈ bs1, c.add_comment i.key x = Except.ok ()) →
      c.add_comment i.key b = Except.error e →
      run (execute loads c (Payload.dict data)) =
        ([RemoteCall.create_issue p s (pyOr (data.get ("description")) (JValue.str ("")))
            (pyOr (data.get ("issueType")) (pyOr (data.get ("issue_type")) (JValue.str ("Task")))) ef,
          RemoteCall.transition_issue i.key st] ++
         bs1.map (RemoteCall.add_comment i.key) ++ [RemoteCall.add_comment i.key b],
         Except.ok (jiraErrorEnvelope e))) ∧
    (c.update_summary k se = Except.ok iU →
      c.transition_issue k ste = Except.error e →
      run (execute loads c (Payload.dict d)) =
        ([RemoteCall.update_summary k se, RemoteCall.transition_issue k ste],
         Except.ok (jiraErrorEnvelope e))) := by
  have hdispC : dispatchCmd c (pyLower ty) data = some (handle_create c data) := by
    rw [hlow]
    rfl
  have hdispE : dispatchCmd c (pyLower ty') d = some (handle_edit c d) := by
    rw [hlow']
    rfl
  refine ⟨?_, ?_, ?_⟩
  · intro htr
    unfold run
    rw [execute_dict_eq loads hty hdispC,
      catchJira_of_jira (handle_create_transition_fail hp hs hf hcr hst htr [])]
    simp
  · intro htr hnc hok hb
    unfold run
    rw [execute_dict_eq loads hty hdispC,
      catchJira_of_jira (handle_create_comment_fail hp hs hf hcr hst htr hnc hok hb [])]
    simp
  · intro hsu htr
    unfold run
    rw [execute_dict_eq loads hty' hdispE,
      catchJira_of_jira (handle_edit_transition_fail hkey hsk hsv hdk hfk hck hcv hsu htr [])]
    simp

/-- C9, witness: the no-rollback theorem applied to a concrete Create whose
first comment is rejected (conjunct two) — creation and transition remain
committed on the trace. -/
theorem c9_witness :
    run (execute loads0 connCommentFail (Payload.dict c3docW)) =
      ([RemoteCall.create_issue ("KAN") ("S") (JValue.str ("")) (JValue.str ("Task")) [],
        RemoteCall.transition_issue ("KAN-1") ("Done")] ++ [] ++
       [RemoteCall.add_comment ("KAN-1") ("a")],
       Except.ok (jiraErrorEnvelope err400)) :=
  (@c9_no_rollback connCommentFail c3docW c9editdoc ("Create") ("Edit") ("KAN") ("S") ("Done")
      ("KAN-1") ("s") ("Bogus") [] issue0 issue0 err400 [] [("b" : String)] ("a") loads0
      rfl rfl rfl rfl rfl rfl rfl rfl rfl rfl rfl rfl rfl rfl rfl rfl).2.1
    rfl rfl (fun x hx => absurd hx (List.not_mem_nil x)) rfl

/-- C4, counterexample: `changeStatus` is present in the document (with a
non-string value), yet the Edit handler neither performs a transition nor
records `"status"` — the returned `actions` list is `[]`, not
`["status"]` as the claim ("exactly lists which of those actions were
present in the document") requires. -/
theorem c4_counterexample :
    c4doc.hasKey ("changeStatus") = true ∧
    run (execute loads0 connOK (Payload.dict c4doc)) =
      ([RemoteCall.get_issue ("KAN-1")],
       Except.ok (JValue.obj
         [("ok", JValue.bool true), ("type", JValue.str ("Edit")),
          ("issue", serialize_issue { issue0 with key := ("KAN-1" : String) }),
          ("actions", JValue.arr [])])) ∧
    JValue.arr [] ≠ JValue.arr [JValue.str ("status")] := by
  refine ⟨rfl, rfl, ?_⟩
  intro h
  injection h with h'
  exact List.noConfusion h'

/-- C4, amended: for every Edit document with a resolvable issue key (and a
well-formed `fields` entry when present), over a connector that accepts
every call, the handler applies exactly the actions that are present *with
the shape the handler accepts* — summary/description/changeStatus when
present as strings, fields when present, comments when the normalized list
is non-empty — and the returned `actions` lists exactly those, in the
fixed order summary, description, fields, status, comments
(`specEditActions`); the remote calls are exactly those actions' calls in
the same order followed by the final fetch (`specEditCalls`). -/
theorem c4_actions_exact (loads : String → Except String Doc) (i : Issue) {d : Doc}
    {ty k : String}
    (hty : (d.get ("type")).asStr = some ty)
    (hlow : pyLower ty = "edit")
    (hkey : (resolveIssueKey d).asStr = some k)
    (hf : d.hasKey ("fields") = false ∨ ∃ f, d.get ("fields") = JValue.obj f) :
    run (execute loads (connEdit i) (Payload.dict d)) =
      (specEditCalls d k,
       Except.ok (JValue.obj
         [("ok", JValue.bool true), ("type", JValue.str ("Edit")),
          ("issue", serialize_issue i),
          ("actions", JValue.arr ((specEditActions d).map JValue.str))])) :=
  edit_run_spec loads i hty hlow hkey hf

/-- C4, witness: a document whose only (valid) optional action is
`changeStatus: "Done"` yields exactly `actions: ["status"]` and the calls
transition-then-fetch. -/
theorem c4_witness :
    run (execute loads0 (connEdit issue0) (Payload.dict
      [("type", JValue.str ("Edit")), ("issueKey", JValue.str ("KAN-1")),
       ("changeStatus", JValue.str ("Done"))])) =
      ([RemoteCall.transition_issue ("KAN-1") ("Done"), RemoteCall.get_issue ("KAN-1")],
       Except.ok (JValue.obj
         [("ok", JValue.bool true), ("type", JValue.str ("Edit")),
          ("issue", serialize_issue issue0),
          ("actions", JValue.arr [JValue.str ("status")])])) := by
  have h := c4_actions_exact loads0 issue0
    (d := [("type", JValue.str ("Edit")), ("issueKey", JValue.str ("KAN-1")),
           ("changeStatus", JValue.str ("Done"))])
    (k := ("KAN-1" : String)) rfl rfl rfl (Or.inl rfl)
  simpa using h

/-- The Edit handler on a document with a string summary and description
and a present but non-object `fields` entry: the two update calls are
issued first, then the `fields` validation raises, out of the handler. -/
theorem handle_edit_fields_invalid_both {c : Connector} {d : Doc} {k s ds : String}
    {iU iD : Issue}
    (hkey : (resolveIssueKey d).asStr = some k)
    (hsk : d.hasKey ("summary") = true)
    (hsv : (d.get ("summary")).asStr = some s)
    (hdk : d.hasKey ("description") = true)
    (hdv : (d.get ("description")).asStr = some ds)
    (hsu : c.update_summary k s = Except.ok iU)
    (hsd : c.update_description k ds = Except.ok iD)
    (hfk : d.hasKey ("fields") = true)
    (hnf : ∀ f, d.get ("fields") ≠ JValue.obj f) (tr : List RemoteCall) :
    handle_edit c d tr =
      (tr ++ [RemoteCall.update_summary k s, RemoteCall.update_description k ds],
       Except.error (PyError.valueError ("\x22fields\x22 must be an object when present."))) := by
  simp only [handle_edit, hkey, edit_summary_step, edit_description_step, edit_fields_step,
    hsk, hsv, hdk, hdv, hsu, hsd, hfk, TransM.bind, TransM.pure, remote, if_true]
  rcases hfv : d.get ("fields") with _ | b | n | sv | xs | f
  · simp [TransM.bind, TransM.pure, remote, raiseValue, List.append_assoc]
  · simp [TransM.bind, TransM.pure, remote, raiseValue, List.append_assoc]
  · simp [TransM.bind, TransM.pure, remote, raiseValue, List.append_assoc]
  · simp [TransM.bind, TransM.pure, remote, raiseValue, List.append_assoc]
  · simp [TransM.bind, TransM.pure, remote, raiseValue, List.append_assoc]
  · exact absurd hfv (hnf f)

/-- Like `handle_edit_fields_invalid_both` with only the summary present. -/
theorem handle_edit_fields_invalid_sum {c : Connector} {d : Doc} {k s : String} {iU : Issue}
    (hkey : (resolveIssueKey d).asStr = some k)
    (hsk : d.hasKey ("summary") = true)
    (hsv : (d.get ("summary")).asStr = some s)
    (hdk : d.hasKey ("description") = false)
    (hsu : c.update_summary k s = Except.ok iU)
    (hfk : d.hasKey ("fields") = true)
    (hnf : ∀ f, d.get ("fields") ≠ JValue.obj f) (tr : List RemoteCall) :
    handle_edit c d tr =
      (tr ++ [RemoteCall.update_summary k s],
       Except.error (PyError.valueError ("\x22fields\x22 must be an object when present."))) := by
  simp only [handle_edit, hkey, edit_summary_step, edit_description_step, edit_fields_step,
    hsk, hsv, hdk, hsu, TransM.bind, TransM.pure, remote, if_true, hfk]
  rcases hfv : d.get ("fields") with _ | b | n | sv | xs | f
  · simp [TransM.bind, TransM.pure, remote, raiseValue, List.append_assoc]
  · simp [TransM.bind, TransM.pure, remote, raiseValue, List.append_assoc]
  · simp [TransM.bind, TransM.pure, remote, raiseValue, List.append_assoc]
  · simp [TransM.bind, TransM.pure, remote, raiseValue, List.append_assoc]
  · simp [TransM.bind, TransM.pure, remote, raiseValue, List.append_assoc]
  · exact absurd hfv (hnf f)

/-- Like `handle_edit_fields_invalid_both` with only the description
present. -/
theorem handle_edit_fields_invalid_desc {c : Connector} {d : Doc} {k ds : String} {iD : Issue}
    (hkey : (resolveIssueKey d).asStr = some k)
    (hsk : d.hasKey ("summary") = false)
    (hdk : d.hasKey ("description") = true)
    (hdv : (d.get ("description")).asStr = some ds)
    (hsd : c.update_description k ds = Except.ok iD)
    (hfk : d.hasKey ("fields") = true)
    (hnf : ∀ f, d.get ("fields") ≠ JValue.obj f) (tr : List RemoteCall) :
    handle_edit c d tr =
      (tr ++ [RemoteCall.update_description k ds],
       Except.error (PyError.valueError ("\x22fields\x22 must be an object when present."))) := by
  simp only [handle_edit, hkey, edit_summary_step, edit_description_step, edit_fields_step,
    hsk, hdk, hdv, hsd, TransM.bind, TransM.pure, remote, if_true, hfk]
  rcases hfv : d.get ("fields") with _ | b | n | sv | xs | f
  · simp [TransM.bind, TransM.pure, remote, raiseValue, List.append_assoc]
  · simp [TransM.bind, TransM.pure, remote, raiseValue, List.append_assoc]
  · simp [TransM.bind, TransM.pure, remote, raiseValue, List.append_assoc]
  · simp [TransM.bind, TransM.pure, remote, raiseValue, List.append_assoc]
  · simp [TransM.bind, TransM.pure, remote, raiseValue, List.append_assoc]
  · exact absurd hfv (hnf f)

/-- C10: an Edit document with a valid issue key, a string `summary` and/or
`description`, and a present non-object `fields` entry makes `execute`
raise the `fields` ValidationError only after the summary/description
update calls have already been issued: a locally-invalid Edit command
produces partial remote side effects before the validation error reaches
the caller. -/
theorem c10_partial_effects_before_validation {c : Connector} {d : Doc} {ty k s ds : String}
    {iU iD : Issue} (loads : String → Except String Doc)
    (hty : (d.get ("type")).asStr = some ty)
    (hlow : pyLower ty = "edit")
    (hkey : (resolveIssueKey d).asStr = some k)
    (hfk : d.hasKey ("fields") = true)
    (hnf : ∀ f, d.get ("fields") ≠ JValue.obj f) :
    (d.hasKey ("summary") = true → (d.get ("summary")).asStr = some s →
      d.hasKey ("description") = true → (d.get ("description")).asStr = some ds →
      c.update_summary k s = Except.ok iU → c.update_description k ds = Except.ok iD →
      run (execute loads c (Payload.dict d)) =
        ([RemoteCall.update_summary k s, RemoteCall.update_description k ds],
         Except.error (PyError.valueError ("\x22fields\x22 must be an object when present.")))) ∧
    (d.hasKey ("summary") = true → (d.get ("summary")).asStr = some s →
      d.hasKey ("description") = false →
      c.update_summary k s = Except.ok iU →
      run (execute loads c (Payload.dict d)) =
        ([RemoteCall.update_summary k s],
         Except.error (PyError.valueError ("\x22fields\x22 must be an object when present.")))) ∧
    (d.hasKey ("summary") = false →
      d.hasKey ("description") = true → (d.get ("description")).asStr = some ds →
      c.update_description k ds = Except.ok iD →
      run (execute loads c (Payload.dict d)) =
        ([RemoteCall.update_description k ds],
         Except.error (PyError.valueError ("\x22fields\x22 must be an object when present.")))) := by
  have hdisp : dispatchCmd c (pyLower ty) d = some (handle_edit c d) := by
    rw [hlow]
    rfl
  refine ⟨?_, ?_, ?_⟩
  · intro hsk hsv hdk hdv hsu hsd
    unfold run
    rw [execute_dict_eq loads hty hdisp,
      catchJira_of_value (handle_edit_fields_invalid_both hkey hsk hsv hdk hdv hsu hsd hfk hnf [])]
    simp
  · intro hsk hsv hdk hsu
    unfold run
    rw [execute_dict_eq loads hty hdisp,
      catchJira_of_value (handle_edit_fields_invalid_sum hkey hsk hsv hdk hsu hfk hnf [])]
    simp
  · intro hsk hdk hdv hsd
    unfold run
    rw [execute_dict_eq loads hty hdisp,
      catchJira_of_value (handle_edit_fields_invalid_desc hkey hsk hdk hdv hsd hfk hnf [])]
    simp

/-- C10, witness: both updates are issued before the `fields` validation
error propagates. -/
theorem c10_witness :
    run (execute loads0 connOK (Payload.dict c10doc)) =
      ([RemoteCall.update_summary ("KAN-1") ("s"), RemoteCall.update_description ("KAN-1") ("d")],
       Except.error (PyError.valueError ("\x22fields\x22 must be an object when present."))) :=
  (@c10_partial_effects_before_validation connOK c10doc ("Edit") ("KAN-1") ("s") ("d")
      { issue0 with key := ("KAN-1" : String) } { issue0 with key := ("KAN-1" : String) } loads0
      rfl rfl rfl rfl (fun f h => by injection h)).1
    rfl rfl rfl rfl rfl rfl

theorem Doc.find_cons_self (k' : String) (v : JValue) (d : Doc) :
    Doc.find ((k', v) :: d) k' = some v := by
  simp [Doc.find]

theorem Doc.find_cons_ne {k' k : String} (h : ¬ k' = k) (v : JValue) (d : Doc) :
    Doc.find ((k', v) :: d) k = d.find k := by
  simp [Doc.find, h]

theorem Doc.get_cons_self (k' : String) (v : JValue) (d : Doc) :
    Doc.get ((k', v) :: d) k' = v := by
  simp [Doc.get, Doc.getD, Doc.find_cons_self]

theorem Doc.get_cons_ne {k' k : String} (h : ¬ k' = k) (v : JValue) (d : Doc) :
    Doc.get ((k', v) :: d) k = d.get k := by
  simp [Doc.get, Doc.getD, Doc.find_cons_ne h]

theorem Doc.hasKey_cons_ne {k' k : String} (h : ¬ k' = k) (v : JValue) (d : Doc) :
    Doc.hasKey ((k', v) :: d) k = d.hasKey k := by
  simp [Doc.hasKey, Doc.find_cons_ne h]

/-- The Edit handler reads a document only through the issue-key resolution
and the five action keys: documents agreeing on those projections are
handled identically. -/
theorem handle_edit_congr {c : Connector} {d1 d2 : Doc}
    (h0 : resolveIssueKey d1 = resolveIssueKey d2)
    (hs1 : d1.hasKey ("summary") = d2.hasKey ("summary"))
    (hs2 : d1.get ("summary") = d2.get ("summary"))
    (hd1 : d1.hasKey ("description") = d2.hasKey ("description"))
    (hd2 : d1.get ("description") = d2.get ("description"))
    (hf1 : d1.hasKey ("fields") = d2.hasKey ("fields"))
    (hf2 : d1.get ("fields") = d2.get ("fields"))
    (hc1 : d1.hasKey ("changeStatus") = d2.hasKey ("changeStatus"))
    (hc2 : d1.get ("changeStatus") = d2.get ("changeStatus"))
    (ha1 : d1.hasKey ("addComment") = d2.hasKey ("addComment"))
    (ha2 : d1.get ("addComment") = d2.get ("addComment")) :
    handle_edit c d1 = handle_edit c d2 := by
  unfold handle_edit edit_summary_step edit_description_step edit_fields_step edit_status_step
    edit_comments_step
  rw [h0, hs1, hs2, hd1, hd2, hf1, hf2, hc1, hc2, ha1, ha2]

/-- C5, counterexample: `issueKey` holds the non-null value `""`, yet the
remote call uses `"KAN-9"` from `key` — the first *non-null* synonym does
not win when it is falsy. -/
theorem c5_counterexample :
    c5doc.get ("issueKey") = JValue.str ("") ∧
    JValue.str ("") ≠ JValue.null ∧
    run (execute loads0 connOK (Payload.dict c5doc)) =
      ([RemoteCall.get_issue ("KAN-9")],
       Except.ok (JValue.obj
         [("ok", JValue.bool true), ("type", JValue.str ("GetIssue")),
          ("issue", serialize_issue { issue0 with key := ("KAN-9" : String) })])) ∧
    ([RemoteCall.get_issue ("KAN-9")] : List RemoteCall) ≠ [RemoteCall.get_issue ("")] := by
  refine ⟨rfl, by simp, rfl, ?_⟩
  intro h
  injection h with h1 h2
  injection h1 with h3
  exact absurd h3 (by decide)

/-- C5, amended: the synonyms are probed in the fixed precedence order
`issueKey`, `key`, `issue`, and the first Python-*truthy* value wins (a
present but falsy value — null, `""`, `0`, `false`, an empty collection —
is skipped; `issue` is taken last unconditionally); the resolved reference
is the one used by every remote call of the GetIssue, GetComments,
GetTransitions and Edit handlers. -/
theorem c5_first_truthy_precedence (i : Issue) (d : Doc) :
    ((d.get ("issueKey")).truthy = true → resolveIssueKey d = d.get ("issueKey")) ∧
    ((d.get ("issueKey")).truthy = false → (d.get ("key")).truthy = true →
        resolveIssueKey d = d.get ("key")) ∧
    ((d.get ("issueKey")).truthy = false → (d.get ("key")).truthy = false →
        resolveIssueKey d = d.get ("issue")) ∧
    (∀ ty k : String, (d.get ("type")).asStr = some ty → (resolveIssueKey d).asStr = some k →
      (pyLower ty = "getissue" →
        run (execute loads0 (connEdit i) (Payload.dict d)) =
          ([RemoteCall.get_issue k],
           Except.ok (JValue.obj
             [("ok", JValue.bool true), ("type", JValue.str ("GetIssue")),
              ("issue", serialize_issue i)]))) ∧
      (pyLower ty = "getcomments" →
        run (execute loads0 (connEdit i) (Payload.dict d)) =
          ([RemoteCall.get_comments k],
           Except.ok (JValue.obj
             [("ok", JValue.bool true), ("type", JValue.str ("GetComments")),
              ("issueKey", JValue.str k), ("total", JValue.num 0),
              ("comments", JValue.arr [])]))) ∧
      (pyLower ty = "gettransitions" →
        run (execute loads0 (connEdit i) (Payload.dict d)) =
          ([RemoteCall.available_transitions k],
           Except.ok (JValue.obj
             [("ok", JValue.bool true), ("type", JValue.str ("GetTransitions")),
              ("issueKey", JValue.str k), ("transitions", JValue.arr [])]))) ∧
      (pyLower ty = "edit" →
        (d.hasKey ("fields") = false ∨ ∃ f, d.get ("fields") = JValue.obj f) →
        run (execute loads0 (connEdit i) (Payload.dict d)) =
          (specEditCalls d k,
           Except.ok (JValue.obj
             [("ok", JValue.bool true), ("type", JValue.str ("Edit")),
              ("issue", serialize_issue i),
              ("actions", JValue.arr ((specEditActions d).map JValue.str))])))) := by
  refine ⟨?_, ?_, ?_, ?_⟩
  · intro h
    simp [resolveIssueKey, pyOr, h]
  · intro h h'
    simp [resolveIssueKey, pyOr, h, h']
  · intro h h'
    simp [resolveIssueKey, pyOr, h, h']
  · intro ty k hty hkey
    refine ⟨?_, ?_, ?_, ?_⟩
    · intro hlow
      have hdisp : dispatchCmd (connEdit i) (pyLower ty) d =
          some (handle_get_issue (connEdit i) d) := by
        rw [hlow]
        rfl
      have hg : (connEdit i).get_issue k = Except.ok i := rfl
      unfold run
      rw [execute_dict_eq loads0 hty hdisp]
      apply catchJira_of_ok
      simp [handle_get_issue, hkey, hg, TransM.bind, TransM.pure, remote]
    · intro hlow
      have hdisp : dispatchCmd (connEdit i) (pyLower ty) d =
          some (handle_get_comments (connEdit i) d) := by
        rw [hlow]
        rfl
      have hg : (connEdit i).get_comments k = Except.ok [] := rfl
      unfold run
      rw [execute_dict_eq loads0 hty hdisp]
      apply catchJira_of_ok
      simp [handle_get_comments, hkey, hg, TransM.bind, TransM.pure, remote, Int.ofNat]
    · intro hlow
      have hdisp : dispatchCmd (connEdit i) (pyLower ty) d =
          some (handle_get_transitions (connEdit i) d) := by
        rw [hlow]
        rfl
      have hg : (connEdit i).available_transitions k = Except.ok (JValue.arr []) := rfl
      unfold run
      rw [execute_dict_eq loads0 hty hdisp]
      apply catchJira_of_ok
      simp [handle_get_transitions, hkey, hg, TransM.bind, TransM.pure, remote]
    · intro hlow hf
      exact edit_run_spec loads0 i hty hlow hkey hf

/-- C5, witness: on `c5doc` the falsy `issueKey` is skipped, `key` wins,
and the single remote call of GetIssue uses it. -/
theorem c5_witness :
    resolveIssueKey c5doc = c5doc.get ("key") ∧
    run (execute loads0 (connEdit issue0) (Payload.dict c5doc)) =
      ([RemoteCall.get_issue ("KAN-9")],
       Except.ok (JValue.obj
         [("ok", JValue.bool true), ("type", JValue.str ("GetIssue")),
          ("issue", serialize_issue issue0)])) :=
  ⟨(c5_first_truthy_precedence issue0 c5doc).2.1 rfl rfl,
   ((c5_first_truthy_precedence issue0 c5doc).2.2.2 ("GetIssue") ("KAN-9") rfl rfl).1 rfl⟩

/-- C6, counterexample: with the key string `k = ""`, the three
otherwise-identical Edit documents are *not* interchangeable: carrying
`""` under `issueKey` or `key` raises a ValidationError with zero remote
calls (the falsy value falls through the `or`-chain to `None`), while
carrying it under `issue` proceeds and issues a fetch for the key `""`. -/
theorem c6_counterexample :
    run (execute loads0 connOK (Payload.dict
      [("type", JValue.str ("Edit")), ("issueKey", JValue.str (""))])) =
      ([], Except.error (PyError.valueError
        ("Edit requires \x22issueKey\x22 (or \x22key\x22/\x22issue\x22) as a string."))) ∧
    run (execute loads0 connOK (Payload.dict
      [("type", JValue.str ("Edit")), ("key", JValue.str (""))])) =
      ([], Except.error (PyError.valueError
        ("Edit requires \x22issueKey\x22 (or \x22key\x22/\x22issue\x22) as a string."))) ∧
    run (execute loads0 connOK (Payload.dict
      [("type", JValue.str ("Edit")), ("issue", JValue.str (""))])) =
      ([RemoteCall.get_issue ("")],
       Except.ok (JValue.obj
         [("ok", JValue.bool true), ("type", JValue.str ("Edit")),
          ("issue", serialize_issue { issue0 with key := ("" : String) }),
          ("actions", JValue.arr [])])) ∧
    ([RemoteCall.get_issue ("")] : List RemoteCall) ≠ [] := by
  refine ⟨rfl, rfl, rfl, by simp⟩

/-- C6, amended: for every *non-empty* key string `k` and every Edit
document carrying no synonym key itself, the three documents obtained by
adding `k` under `issueKey`, under `key`, or under `issue` produce
identical observable behaviour — in particular identical remote call
sequences — over any connector. -/
theorem c6_synonyms_interchangeable (loads : String → Except String Doc) (c : Connector)
    (d : Doc) (k ty : String) (hk : k ≠ "")
    (h1 : d.hasKey ("issueKey") = false) (h2 : d.hasKey ("key") = false)
    (_h3 : d.hasKey ("issue") = false)
    (hty : (d.get ("type")).asStr = some ty) (hlow : pyLower ty = "edit") :
    run (execute loads c (Payload.dict ((("issueKey" : String), JValue.str k) :: d))) =
      run (execute loads c (Payload.dict ((("key" : String), JValue.str k) :: d))) ∧
    run (execute loads c (Payload.dict ((("key" : String), JValue.str k) :: d))) =
      run (execute loads c (Payload.dict ((("issue" : String), JValue.str k) :: d))) := by
  have htru : (JValue.str k).truthy = true := by simp [JValue.truthy, hk]
  have hnull : JValue.null.truthy = false := rfl
  have rIK : resolveIssueKey ((("issueKey" : String), JValue.str k) :: d) = JValue.str k := by
    simp [resolveIssueKey, Doc.get_cons_self, pyOr, htru]
  have rK : resolveIssueKey ((("key" : String), JValue.str k) :: d) = JValue.str k := by
    simp [resolveIssueKey, Doc.get_cons_self,
      Doc.get_cons_ne (show ¬("key" = "issueKey") by decide),
      Doc.get_cons_ne (show ¬("key" = "issue") by decide),
      Doc.get_of_not_hasKey h1, pyOr, hnull, htru]
  have rI : resolveIssueKey ((("issue" : String), JValue.str k) :: d) = JValue.str k := by
    simp [resolveIssueKey, Doc.get_cons_self,
      Doc.get_cons_ne (show ¬("issue" = "issueKey") by decide),
      Doc.get_cons_ne (show ¬("issue" = "key") by decide),
      Doc.get_of_not_hasKey h1, Doc.get_of_not_hasKey h2, pyOr, hnull]
  have e12 : handle_edit c ((("issueKey" : String), JValue.str k) :: d) =
      handle_edit c ((("key" : String), JValue.str k) :: d) := by
    apply handle_edit_congr
    · rw [rIK, rK]
    all_goals
      simp [Doc.hasKey_cons_ne (show ¬("issueKey" = "summary") by decide),
        Doc.hasKey_cons_ne (show ¬("key" = "summary") by decide),
        Doc.hasKey_cons_ne (show ¬("issueKey" = "description") by decide),
        Doc.hasKey_cons_ne (show ¬("key" = "description") by decide),
        Doc.hasKey_cons_ne (show ¬("issueKey" = "fields") by decide),
        Doc.hasKey_cons_ne (show ¬("key" = "fields") by decide),
        Doc.hasKey_cons_ne (show ¬("issueKey" = "changeStatus") by decide),
        Doc.hasKey_cons_ne (show ¬("key" = "changeStatus") by decide),
        Doc.hasKey_cons_ne (show ¬("issueKey" = "addComment") by decide),
        Doc.hasKey_cons_ne (show ¬("key" = "addComment") by decide),
        Doc.get_cons_ne (show ¬("issueKey" = "summary") by decide),
        Doc.get_cons_ne (show ¬("key" = "summary") by decide),
        Doc.get_cons_ne (show ¬("issueKey" = "description") by decide),
        Doc.get_cons_ne (show ¬("key" = "description") by decide),
        Doc.get_cons_ne (show ¬("issueKey" = "fields") by decide),
        Doc.get_cons_ne (show ¬("key" = "fields") by decide),
        Doc.get_cons_ne (show ¬("issueKey" = "changeStatus") by decide),
        Doc.get_cons_ne (show ¬("key" = "changeStatus") by decide),
        Doc.get_cons_ne (show ¬("issueKey" = "addComment") by decide),
        Doc.get_cons_ne (show ¬("key" = "addComment") by decide)]
  have e23 : handle_edit c ((("key" : String), JValue.str k) :: d) =
      handle_edit c ((("issue" : String), JValue.str k) :: d) := by
    apply handle_edit_congr
    · rw [rK, rI]
    all_goals
      simp [Doc.hasKey_cons_ne (show ¬("issue" = "summary") by decide),
        Doc.hasKey_cons_ne (show ¬("key" = "summary") by decide),
        Doc.hasKey_cons_ne (show ¬("issue" = "description") by decide),
        Doc.hasKey_cons_ne (show ¬("key" = "description") by decide),
        Doc.hasKey_cons_ne (show ¬("issue" = "fields") by decide),
        Doc.hasKey_cons_ne (show ¬("key" = "fields") by decide),
        Doc.hasKey_cons_ne (show ¬("issue" = "changeStatus") by decide),
        Doc.hasKey_cons_ne (show ¬("key" = "changeStatus") by decide),
        Doc.hasKey_cons_ne (show ¬("issue" = "addComment") by decide),
        Doc.hasKey_cons_ne (show ¬("key" = "addComment") by decide),
        Doc.get_cons_ne (show ¬("issue" = "summary") by decide),
        Doc.get_cons_ne (show ¬("key" = "summary") by decide),
        Doc.get_cons_ne (show ¬("issue" = "description") by decide),
        Doc.get_cons_ne (show ¬("key" = "description") by decide),
        Doc.get_cons_ne (show ¬("issue" = "fields") by decide),
        Doc.get_cons_ne (show ¬("key" = "fields") by decide),
        Doc.get_cons_ne (show ¬("issue" = "changeStatus") by decide),
        Doc.get_cons_ne (show ¬("key" = "changeStatus") by decide),
        Doc.get_cons_ne (show ¬("issue" = "addComment") by decide),
        Doc.get_cons_ne (show ¬("key" = "addComment") by decide)]
  have hty1 : (Doc.get ((("issueKey" : String), JValue.str k) :: d) ("type")).asStr = some ty := by
    rw [Doc.get_cons_ne (show ¬("issueKey" = "type") by decide)]
    exact hty
  have hty2 : (Doc.get ((("key" : String), JValue.str k) :: d) ("type")).asStr = some ty := by
    rw [Doc.get_cons_ne (show ¬("key" = "type") by decide)]
    exact hty
  have hty3 : (Doc.get ((("issue" : String), JValue.str k) :: d) ("type")).asStr = some ty := by
    rw [Doc.get_cons_ne (show ¬("issue" = "type") by decide)]
    exact hty
  have hd1 : dispatchCmd c (pyLower ty) ((("issueKey" : String), JValue.str k) :: d) =
      some (handle_edit c ((("issueKey" : String), JValue.str k) :: d)) := by
    rw [hlow]
    rfl
  have hd2 : dispatchCmd c (pyLower ty) ((("key" : String), JValue.str k) :: d) =
      some (handle_edit c ((("key" : String), JValue.str k) :: d)) := by
    rw [hlow]
    rfl
  have hd3 : dispatchCmd c (pyLower ty) ((("issue" : String), JValue.str k) :: d) =
      some (handle_edit c ((("issue" : String), JValue.str k) :: d)) := by
    rw [hlow]
    rfl
  constructor
  · unfold run
    rw [execute_dict_eq loads hty1 hd1, execute_dict_eq loads hty2 hd2, e12]
  · unfold run
    rw [execute_dict_eq loads hty2 hd2, execute_dict_eq loads hty3 hd3, e23]

/-- C6, witness: the interchangeability theorem at the non-empty key
`"KAN-3"` over a minimal Edit document. -/
theorem c6_witness :
    run (execute loads0 connOK (Payload.dict
      [("issueKey", JValue.str ("KAN-3")), ("type", JValue.str ("Edit"))])) =
      run (execute loads0 connOK (Payload.dict
        [("key", JValue.str ("KAN-3")), ("type", JValue.str ("Edit"))])) ∧
    run (execute loads0 connOK (Payload.dict
      [("key", JValue.str ("KAN-3")), ("type", JValue.str ("Edit"))])) =
      run (execute loads0 connOK (Payload.dict
        [("issue", JValue.str ("KAN-3")), ("type", JValue.str ("Edit"))])) :=
  c6_synonyms_interchangeable loads0 connOK [("type", JValue.str ("Edit"))] ("KAN-3") ("Edit")
    (by decide) rfl rfl rfl rfl rfl
